import Mathlib

/-!
Verification of the HeartRateMonitor repository's device-session core.

This file shallowly embeds the parts of the source that the checked
properties are about:

* the notification handler of `src/adaptors/type_1.rs` (`heartbeat_loop`):
  frame decoding, the Disconnected-to-Ok promotion, the initial-battery
  backfill, and the termination sequence;
* the candidate sorting of `src/adaptors/hrm.rs` (`search`);
* the automatic-selection stage of `src/adaptors/hrm.rs` (`choose_device`);
* the registry insertion of `src/config.rs` (`add_hrm`).

Rust `u8` payload bytes are modelled as `Fin 256`; a Rust index-out-of-range
panic is modelled by an `Option` result of `none`.
-/

/-- A payload byte (Rust `u8`). -/
abbrev Byte := Fin 256

/-- Mirrors `HrData` of `src/adaptors/mod.rs`: `hr: u16`,
`contact_ok: Option<bool>`, `battery: Option<u8>`. -/
structure HrData where
  hr : Nat
  contact_ok : Option Bool
  battery : Option Byte
deriving Repr, DecidableEq

/-- Mirrors `HrmState` of `src/adaptors/mod.rs`. -/
inductive HrmState where
  | Disconnected
  | Ok (data : HrData)
deriving Repr, DecidableEq

/-- The u128 literal matched by the handler's battery arm in
`heartbeat_loop` (`0x0000180d_0000_1000_8000_00805f9b34fb`); this is the
standard heart-rate SERVICE uuid. -/
def HR_SERVICE_UUID : Nat := 0x0000180d00001000800000805f9b34fb

/-- The heart-rate-measurement characteristic uuid matched by the handler
(`0x00002a37_0000_1000_8000_00805f9b34fb`). -/
def HR_MEASUREMENT_UUID : Nat := 0x00002a3700001000800000805f9b34fb

/-- The battery-level characteristic uuid that `try_wrap` reads and
subscribes to (`0x00002a19_0000_1000_8000_00805f9b34fb`). -/
def BATTERY_LEVEL_UUID : Nat := 0x00002a1900001000800000805f9b34fb

/-- The heart-rate width step of the measurement arm of `heartbeat_loop`
(src/adaptors/type_1.rs lines 78-84): if bit 0 of the flags byte is set the
rate is `u16::from_le_bytes([value[1], value[2]])`, otherwise it is
`u16::from(value[1])`.  `none` models the index-out-of-range panic of the
source's direct `value[i]` indexing. -/
def decodeHr (data : HrData) (flags : Byte) (value : List Byte) : Option HrData :=
  if flags.val &&& 1 > 0 then
    match value[1]?, value[2]? with
    | some b1, some b2 => some { data with hr := b1.val + 256 * b2.val }
    | _, _ => none
  else
    match value[1]? with
    | some b1 => some { data with hr := b1.val }
    | none => none

/-- The contact-sensor step of the measurement arm of `heartbeat_loop`
(lines 87-93): bit 2 of the flags byte says whether the contact sensor is
supported; when it is, bit 1 is the contact flag, otherwise `contact_ok` is
reset to `None`. -/
def decodeContact (data : HrData) (flags : Byte) : HrData :=
  if flags.val &&& 4 > 0 then
    { data with contact_ok := some (decide (flags.val &&& 2 > 0)) }
  else
    { data with contact_ok := none }

/-- The `match received_data.uuid.as_u128()` block of `heartbeat_loop`
(src/adaptors/type_1.rs lines 72-96).  Field accesses `value[i]` are the
source's direct indexing; `none` models the index-out-of-range panic.
Note the battery arm tests for `HR_SERVICE_UUID`, exactly as the source
does; unknown uuids fall through to the `_ => {}` arm, leaving the data
untouched. -/
def decodeFrame (data : HrData) (uuid : Nat) (value : List Byte) : Option HrData :=
  if uuid = HR_SERVICE_UUID then
    match value[0]? with
    | some b0 => some { data with battery := some b0 }
    | none => none
  else if uuid = HR_MEASUREMENT_UUID then
    match value[0]? with
    | none => none
    | some flags => (decodeHr data flags value).map (fun d => decodeContact d flags)
  else
    some data

/-- The `if let HrmState::Disconnected = state { mem::replace(..) }` step of
`heartbeat_loop` (lines 62-70): a Disconnected state is promoted to a fresh
`Ok` reading before decoding. -/
def promote : HrmState → HrmState
  | HrmState.Disconnected => HrmState.Ok ⟨0, none, none⟩
  | s => s

/-- The `if data.battery.is_none() { data.battery = initial_battery }` step
of `heartbeat_loop` (lines 97-99). -/
def backfill (initial_battery : Option Byte) (d : HrData) : HrData :=
  if d.battery.isNone then { d with battery := initial_battery } else d

/-- One iteration of the notification-draining task of `heartbeat_loop`
(lines 55-105) on a single received notification: promote a Disconnected
state, decode the frame by characteristic uuid, backfill the battery from
the initial read, and publish the resulting state.  A result of `none`
models a panic (out-of-range payload indexing); `some st` means the new
state `st` is stored and broadcast as the published snapshot. -/
def processNotification (initial_battery : Option Byte) (st : HrmState)
    (uuid : Nat) (value : List Byte) : Option HrmState :=
  match promote st with
  | HrmState.Ok data =>
    match decodeFrame data uuid value with
    | none => none
    | some d => some (HrmState.Ok (backfill initial_battery d))
  | HrmState.Disconnected => some (promote st)

/-- Outcome of the heartbeat loop's termination sequence: which snapshots
were sent on the broadcast channel, whether `peripheral.disconnect()` was
reached, and the `anyhow::Result` the loop returned (`none` = `Ok(())`,
`some e` = the propagated error). -/
structure TermOutcome where
  published : List HrmState
  disconnectCalled : Bool
  result : Option String
deriving Repr, DecidableEq

/-- First error among the unsubscribe results, in call order (`none` models
a Rust `Ok(())`, `some e` an `Err(e)`). -/
def firstError : List (Option String) → Option String
  | [] => none
  | none :: rest => firstError rest
  | some e :: _ => some e

/-- The termination sequence of `heartbeat_loop` (src/adaptors/type_1.rs
lines 147-169), entered after the single reconnect attempt fails or times
out: abort the draining task, then `unsubscribe` every characteristic with
the `?` operator — an error returns from the function at once — then set
the shared state to Disconnected and send one Disconnected snapshot, then
`disconnect` with `?`, then return `Ok(())`.  `unsubs` lists the transport
results of the unsubscribe calls in characteristic order and `disc` the
result of the disconnect call. -/
def terminationSequence (unsubs : List (Option String)) (disc : Option String) :
    TermOutcome :=
  match firstError unsubs with
  | some e => { published := [], disconnectCalled := false, result := some e }
  | none =>
    { published := [HrmState.Disconnected], disconnectCalled := true, result := disc }

/-- Mirrors `FoundDevice` of `src/adaptors/mod.rs` as far as discovery and
selection use it: the display name, the hardware address (modelled as a
number), and the `is_known` / `filtered` flags computed in `search`. -/
structure FoundDevice where
  name : String
  addr : Nat
  is_known : Bool
  filtered : Bool
deriving Repr, DecidableEq

/-- The sort key built in `search` (src/adaptors/hrm.rs lines 232-244):
the position of the address in the filter list (or its length when
absent), the position in the known list (or its length), and the third
component written in the source as `f.name.clone().make_ascii_lowercase()`
— an in-place mutation returning `()`, so the third key component is the
unit value. -/
def sortKeyCode (filterL knownL : List Nat) (f : FoundDevice) : Nat × Nat × Unit :=
  (filterL.findIdx (fun a => a == f.addr), knownL.findIdx (fun a => a == f.addr), ())

/-- Lexicographic comparison of the sort keys, as Rust's `Ord` on the
3-tuple: units always compare equal. -/
def keyLe (a b : Nat × Nat × Unit) : Bool :=
  a.1 < b.1 || (a.1 == b.1 && (a.2.1 < b.2.1 || (a.2.1 == b.2.1 && true)))

/-- Stable insertion: an element is placed before the first existing
element that is not strictly below it, so earlier elements precede equal
later ones. -/
def insertStable (le : FoundDevice → FoundDevice → Bool) (a : FoundDevice) :
    List FoundDevice → List FoundDevice
  | [] => [a]
  | b :: l => if le a b then a :: b :: l else b :: insertStable le a l

/-- A stable sort (insertion sort); `itertools::sorted_by_key` is a stable
sort, and all stable sorts agree, so this is its embedding. -/
def stableSortBy (le : FoundDevice → FoundDevice → Bool) :
    List FoundDevice → List FoundDevice
  | [] => []
  | x :: xs => insertStable le x (stableSortBy le xs)

/-- The candidate ordering `search` applies before returning
(src/adaptors/hrm.rs lines 228-247): a stable sort by `sortKeyCode`. -/
def searchSort (filterL knownL : List Nat) (devices : List FoundDevice) :
    List FoundDevice :=
  stableSortBy (fun a b => keyLe (sortKeyCode filterL knownL a) (sortKeyCode filterL knownL b))
    devices

/-- Outcome of the automatic stage of `choose_device` (src/adaptors/hrm.rs
lines 259-274): `picked` models the early `return Some(first_device)`,
`empty` the `devices.first()?` propagation on an empty list, and
`interactive` the fall-through into the manual prompt loop. -/
inductive ChoiceOutcome where
  | picked (d : FoundDevice)
  | empty
  | interactive
deriving Repr, DecidableEq

/-- The automatic stage of `choose_device`: only the FIRST candidate is
examined — with automatic acceptance it is returned when it matches the
filter, otherwise it is returned when it is registry-known; in every other
case the code falls through to interactive prompting. -/
def chooseDeviceAuto (accept_new_device : Bool) (devices : List FoundDevice) :
    ChoiceOutcome :=
  match devices with
  | [] => ChoiceOutcome.empty
  | first :: _ =>
    if accept_new_device then
      if first.filtered then ChoiceOutcome.picked first else ChoiceOutcome.interactive
    else
      if first.is_known then ChoiceOutcome.picked first else ChoiceOutcome.interactive

/-- Mirrors `Hrm` of `src/config.rs`: registry entry of a previously
accepted device (mac address modelled as a number). -/
structure Hrm where
  name : String
  mac : Nat
  adaptor_id : Option Nat
deriving Repr, DecidableEq

/-- `ProgramConfig::add_hrm` (src/config.rs lines 65-73) restricted to its
effect on `hrm_list`: push the entry unless an entry with the same mac
already exists (the subsequent `save()` writes the file and cannot change
the list; its errors are only logged). -/
def add_hrm (hrm_list : List Hrm) (hrm : Hrm) : List Hrm :=
  if hrm_list.any (fun d => d.mac == hrm.mac) then hrm_list else hrm_list ++ [hrm]

/-! ### Helper lemmas -/

theorem promote_Ok (d : HrData) : promote (HrmState.Ok d) = HrmState.Ok d := rfl

theorem promote_ok (st : HrmState) : ∃ d, promote st = HrmState.Ok d := by
  cases st with
  | Disconnected => exact ⟨⟨0, none, none⟩, rfl⟩
  | Ok d => exact ⟨d, rfl⟩

theorem backfill_eq (ib : Option Byte) (d : HrData) :
    backfill ib d = ⟨d.hr, d.contact_ok, if d.battery.isNone then ib else d.battery⟩ := by
  obtain ⟨hr, c, b⟩ := d
  cases b <;> simp [backfill]

theorem processNotification_eq (ib : Option Byte) (st : HrmState) (uuid : Nat)
    (v : List Byte) (d0 : HrData) (hst : promote st = HrmState.Ok d0) :
    processNotification ib st uuid v =
      (decodeFrame d0 uuid v).map (fun d => HrmState.Ok (backfill ib d)) := by
  unfold processNotification
  rw [hst]
  cases h : decodeFrame d0 uuid v <;> simp [h]

theorem uuids_distinct : HR_MEASUREMENT_UUID ≠ HR_SERVICE_UUID ∧
    BATTERY_LEVEL_UUID ≠ HR_SERVICE_UUID ∧ BATTERY_LEVEL_UUID ≠ HR_MEASUREMENT_UUID := by
  refine ⟨?_, ?_, ?_⟩ <;> decide

theorem decodeHr_u16 (d : HrData) (flags b1 b2 : Byte) (rest : List Byte)
    (h : flags.val &&& 1 > 0) :
    decodeHr d flags (flags :: b1 :: b2 :: rest) =
      some { d with hr := b1.val + 256 * b2.val } := by
  unfold decodeHr
  rw [if_pos h]
  simp only [List.getElem?_cons_succ, List.getElem?_cons_zero]

theorem decodeHr_u8 (d : HrData) (flags b1 : Byte) (rest : List Byte)
    (h : ¬ flags.val &&& 1 > 0) :
    decodeHr d flags (flags :: b1 :: rest) = some { d with hr := b1.val } := by
  unfold decodeHr
  rw [if_neg h]
  simp only [List.getElem?_cons_succ, List.getElem?_cons_zero]

theorem decodeHr_fields (d d1 : HrData) (flags : Byte) (v : List Byte)
    (h : decodeHr d flags v = some d1) :
    d1.battery = d.battery ∧ d1.contact_ok = d.contact_ok := by
  unfold decodeHr at h
  split at h
  · split at h <;> cases h
    exact ⟨rfl, rfl⟩
  · split at h <;> cases h
    exact ⟨rfl, rfl⟩

theorem backfill_fields (ib : Option Byte) (d : HrData) :
    (backfill ib d).hr = d.hr ∧ (backfill ib d).contact_ok = d.contact_ok := by
  rw [backfill_eq]
  exact ⟨rfl, rfl⟩

theorem decodeContact_fields (d : HrData) (flags : Byte) :
    (decodeContact d flags).battery = d.battery ∧ (decodeContact d flags).hr = d.hr := by
  unfold decodeContact
  split <;> exact ⟨rfl, rfl⟩

theorem decodeFrame_measurement (d : HrData) (flags : Byte) (v : List Byte) :
    decodeFrame d HR_MEASUREMENT_UUID (flags :: v) =
      (decodeHr d flags (flags :: v)).map (fun d1 => decodeContact d1 flags) := by
  rw [decodeFrame, if_neg uuids_distinct.1, if_pos rfl]
  simp only [List.getElem?_cons_zero]

theorem decodeFrame_unknown (d : HrData) (uuid : Nat) (v : List Byte)
    (h1 : uuid ≠ HR_SERVICE_UUID) (h2 : uuid ≠ HR_MEASUREMENT_UUID) :
    decodeFrame d uuid v = some d := by
  rw [decodeFrame, if_neg h1, if_neg h2]

theorem decodeFrame_battery_preserved (d d1 : HrData) (uuid : Nat) (v : List Byte)
    (h : decodeFrame d uuid v = some d1) (hu : uuid ≠ HR_SERVICE_UUID) :
    d1.battery = d.battery := by
  rw [decodeFrame, if_neg hu] at h
  by_cases h2 : uuid = HR_MEASUREMENT_UUID
  · rw [if_pos h2] at h
    cases hv0 : v[0]? with
    | none => simp [hv0] at h
    | some flags =>
      simp only [hv0] at h
      cases hhr : decodeHr d flags v with
      | none => simp [hhr] at h
      | some dmid =>
        simp only [hhr, Option.map_some'] at h
        cases h
        rw [(decodeContact_fields dmid flags).1]
        exact (decodeHr_fields d dmid flags v hhr).1
  · rw [if_neg h2] at h
    cases h
    rfl

theorem decodeFrame_service_battery (d d1 : HrData) (v : List Byte)
    (h : decodeFrame d HR_SERVICE_UUID v = some d1) : ∃ b, d1.battery = some b := by
  rw [decodeFrame, if_pos rfl] at h
  cases hv0 : v[0]? with
  | none => simp [hv0] at h
  | some b0 =>
    simp only [hv0] at h
    cases h
    exact ⟨b0, rfl⟩

/-! ### Claim theorems -/

/-- C1: for every heart-rate measurement frame, if bit 0 of the flags byte
(payload byte 0) is set then the decoded heart rate equals the
little-endian 16-bit value of payload bytes 1-2, and if bit 0 is clear it
equals the 8-bit value of payload byte 1; in particular the frame
`[0b00000001, 0x64, 0x00]` decodes to 100 bpm and `[0b00000000, 0x4B]`
decodes to 75 bpm. -/
theorem hr_width_decoding (ib : Option Byte) (st : HrmState) :
    (∀ (b0 b1 b2 : Byte) (rest : List Byte), b0.val &&& 1 > 0 →
      ∃ d, processNotification ib st HR_MEASUREMENT_UUID (b0 :: b1 :: b2 :: rest) =
          some (HrmState.Ok d) ∧ d.hr = b1.val + 256 * b2.val) ∧
    (∀ (b0 b1 : Byte) (rest : List Byte), b0.val &&& 1 = 0 →
      ∃ d, processNotification ib st HR_MEASUREMENT_UUID (b0 :: b1 :: rest) =
          some (HrmState.Ok d) ∧ d.hr = b1.val) ∧
    processNotification none HrmState.Disconnected HR_MEASUREMENT_UUID [1, 0x64, 0] =
      some (HrmState.Ok ⟨100, none, none⟩) ∧
    processNotification none HrmState.Disconnected HR_MEASUREMENT_UUID [0, 0x4B] =
      some (HrmState.Ok ⟨75, none, none⟩) := by
  obtain ⟨d0, hd0⟩ := promote_ok st
  refine ⟨?_, ?_, by decide, by decide⟩
  · intro b0 b1 b2 rest h
    refine ⟨backfill ib (decodeContact { d0 with hr := b1.val + 256 * b2.val } b0), ?_, ?_⟩
    · rw [processNotification_eq ib st _ _ d0 hd0, decodeFrame_measurement,
        decodeHr_u16 _ _ _ _ _ h]
      rfl
    · rw [(backfill_fields ib _).1, (decodeContact_fields _ b0).2]
  · intro b0 b1 rest h
    have h' : ¬ b0.val &&& 1 > 0 := by omega
    refine ⟨backfill ib (decodeContact { d0 with hr := b1.val } b0), ?_, ?_⟩
    · rw [processNotification_eq ib st _ _ d0 hd0, decodeFrame_measurement,
        decodeHr_u8 _ _ _ _ h']
      rfl
    · rw [(backfill_fields ib _).1, (decodeContact_fields _ b0).2]

/-- Witness for C1 evaluated on the spec's two concrete frames. -/
theorem hr_width_decoding_witness :
    ((1 : Byte).val &&& 1 > 0) ∧ ((0 : Byte).val &&& 1 = 0) ∧
    (∃ d, processNotification none HrmState.Disconnected HR_MEASUREMENT_UUID
        ([1, 0x64, 0] : List Byte) = some (HrmState.Ok d) ∧
        d.hr = (0x64 : Byte).val + 256 * (0 : Byte).val) ∧
    (∃ d, processNotification none HrmState.Disconnected HR_MEASUREMENT_UUID
        ([0, 0x4B] : List Byte) = some (HrmState.Ok d) ∧ d.hr = (0x4B : Byte).val) := by
  refine ⟨by decide, by decide, ?_, ?_⟩
  · exact (hr_width_decoding none HrmState.Disconnected).1 1 0x64 0 [] (by decide)
  · exact (hr_width_decoding none HrmState.Disconnected).2.1 0 0x4B [] (by decide)

/-- C2 (refuted by the code): the handler's decoding step indexes the
payload directly (`received_data.value[0]`, `value[1]`, `value[2]`), so a
short or empty payload panics with an index-out-of-range instead of
treating missing bytes as zero.  `none` is the embedding of that panic:
empty and one-byte measurement payloads, and an empty payload on the
battery arm's uuid, all evaluate to `none`. -/
theorem short_payload_panics :
    processNotification none (HrmState.Ok ⟨0, none, none⟩) HR_MEASUREMENT_UUID [] = none ∧
    processNotification none (HrmState.Ok ⟨0, none, none⟩) HR_MEASUREMENT_UUID [1] = none ∧
    processNotification none (HrmState.Ok ⟨0, none, none⟩) HR_MEASUREMENT_UUID [0] = none ∧
    processNotification none (HrmState.Ok ⟨0, none, none⟩) HR_SERVICE_UUID [] = none := by
  refine ⟨?_, ?_, ?_, ?_⟩ <;> decide

/-- C3 (refuted by the code): the session subscribes to the battery-level
characteristic `0x2a19`, but the handler's battery arm matches the
heart-rate SERVICE uuid `0x180d`, so a notification from the subscribed
battery characteristic falls into the default arm and does not set
`battery` to payload byte 0 (here it stays `none` instead of `some 80`);
the arm that does set the battery listens on a uuid no subscribed
characteristic carries. -/
theorem battery_uuid_mismatch :
    processNotification none (HrmState.Ok ⟨60, none, none⟩) BATTERY_LEVEL_UUID [80] =
      some (HrmState.Ok ⟨60, none, none⟩) ∧
    (HrmState.Ok ⟨60, none, none⟩ : HrmState) ≠ HrmState.Ok ⟨60, none, some 80⟩ ∧
    processNotification none (HrmState.Ok ⟨60, none, none⟩) HR_SERVICE_UUID [80] =
      some (HrmState.Ok ⟨60, none, some 80⟩) := by
  refine ⟨?_, ?_, ?_⟩ <;> decide

/-- C4: once the battery holds some value, processing a heart-rate
measurement frame leaves it unchanged, and no processed notification ever
clears it back to `none` (only the termination transition to Disconnected
discards it). -/
theorem battery_retention (ib : Option Byte) (hr0 : Nat) (c : Option Bool) (bv : Byte)
    (uuid : Nat) (v : List Byte) (st' : HrmState)
    (h : processNotification ib (HrmState.Ok ⟨hr0, c, some bv⟩) uuid v = some st') :
    ∃ d, st' = HrmState.Ok d ∧ d.battery ≠ none ∧
      (uuid = HR_MEASUREMENT_UUID → d.battery = some bv) := by
  rw [processNotification_eq ib _ uuid v ⟨hr0, c, some bv⟩ (promote_Ok _)] at h
  cases hdf : decodeFrame ⟨hr0, c, some bv⟩ uuid v with
  | none => simp [hdf] at h
  | some d1 =>
    simp only [hdf, Option.map_some'] at h
    cases h
    refine ⟨backfill ib d1, rfl, ?_⟩
    by_cases hu : uuid = HR_SERVICE_UUID
    · subst hu
      obtain ⟨b, hb⟩ := decodeFrame_service_battery _ _ _ hdf
      constructor
      · rw [backfill_eq]
        simp [hb]
      · intro hmeq
        exact absurd hmeq (by decide)
    · have hbat : d1.battery = some bv := decodeFrame_battery_preserved _ _ _ _ hdf hu
      have hres : (backfill ib d1).battery = some bv := by
        rw [backfill_eq]
        simp [hbat]
      exact ⟨by simp [hres], fun _ => hres⟩

/-- Witness for C4: a reading with battery 42 processes the measurement
frame `[0, 75]` and keeps battery 42. -/
theorem battery_retention_witness :
    processNotification none (HrmState.Ok ⟨60, none, some 42⟩) HR_MEASUREMENT_UUID
      ([0, 75] : List Byte) = some (HrmState.Ok ⟨75, none, some 42⟩) ∧
    ∃ d, (HrmState.Ok ⟨75, none, some 42⟩ : HrmState) = HrmState.Ok d ∧ d.battery ≠ none ∧
      (HR_MEASUREMENT_UUID = HR_MEASUREMENT_UUID → d.battery = some 42) := by
  refine ⟨by decide, ?_⟩
  exact battery_retention none 60 none 42 HR_MEASUREMENT_UUID [0, 75] _ (by decide)

/-- C5 (counterexample): a notification with an unknown characteristic
identifier does NOT leave the reading state unchanged: received while
Disconnected, the handler promotes the state to a Connected default reading
(with the initial battery backfilled), flipping the Disconnected tag. -/
theorem unknown_uuid_not_inert :
    processNotification (some 50) HrmState.Disconnected 5 [] =
      some (HrmState.Ok ⟨0, none, some 50⟩) ∧
    (HrmState.Ok ⟨0, none, some 50⟩ : HrmState) ≠ HrmState.Disconnected := by
  constructor <;> decide

/-- C5 (amended): a notification with an unknown characteristic identifier
is processed without error (no panic) and leaves the heart rate and contact
flag unchanged, but it is not a no-op: a Disconnected state becomes a
Connected default reading, and an unset battery is backfilled from the
initial battery read. -/
theorem unknown_uuid_effect (ib : Option Byte) (uuid : Nat) (v : List Byte)
    (h1 : uuid ≠ HR_SERVICE_UUID) (h2 : uuid ≠ HR_MEASUREMENT_UUID) :
    (∀ (hr0 : Nat) (c : Option Bool) (b : Option Byte),
      processNotification ib (HrmState.Ok ⟨hr0, c, b⟩) uuid v =
        some (HrmState.Ok ⟨hr0, c, if b.isNone then ib else b⟩)) ∧
    processNotification ib HrmState.Disconnected uuid v =
      some (HrmState.Ok ⟨0, none, ib⟩) := by
  constructor
  · intro hr0 c b
    rw [processNotification_eq ib _ uuid v ⟨hr0, c, b⟩ (promote_Ok _),
      decodeFrame_unknown _ _ _ h1 h2, Option.map_some', backfill_eq]
  · rw [processNotification_eq ib HrmState.Disconnected uuid v ⟨0, none, none⟩ rfl,
      decodeFrame_unknown _ _ _ h1 h2, Option.map_some', backfill_eq]
    rfl

/-- Witness for C5's amended theorem at uuid 5 with initial battery 50. -/
theorem unknown_uuid_effect_witness :
    ((5 : Nat) ≠ HR_SERVICE_UUID) ∧ ((5 : Nat) ≠ HR_MEASUREMENT_UUID) ∧
    processNotification (some 50) (HrmState.Ok ⟨80, some true, none⟩) 5 [] =
      some (HrmState.Ok ⟨80, some true, some 50⟩) := by
  refine ⟨by decide, by decide, ?_⟩
  exact (unknown_uuid_effect (some 50) 5 [] (by decide) (by decide)).1 80 (some true) none

/-- C10: when a decoded frame leaves the battery unset, the handler
backfills it with the battery value read once at match time; consequently,
whenever that initial read succeeded, every published Connected reading
carries a battery value. -/
theorem initial_battery_backfill :
    (∀ (ib : Option Byte) (d1 d2 : HrData) (uuid : Nat) (v : List Byte),
      decodeFrame d1 uuid v = some d2 → d2.battery = none →
      processNotification ib (HrmState.Ok d1) uuid v =
        some (HrmState.Ok ⟨d2.hr, d2.contact_ok, ib⟩)) ∧
    (∀ (b : Byte) (st : HrmState) (uuid : Nat) (v : List Byte) (st' : HrmState),
      processNotification (some b) st uuid v = some st' →
      ∃ d, st' = HrmState.Ok d ∧ d.battery.isSome) := by
  constructor
  · intro ib d1 d2 uuid v hdf hb
    rw [processNotification_eq ib _ uuid v d1 (promote_Ok _), hdf, Option.map_some', backfill_eq, hb]
    rfl
  · intro b st uuid v st' h
    obtain ⟨d0, hd0⟩ := promote_ok st
    rw [processNotification_eq _ st uuid v d0 hd0] at h
    cases hdf : decodeFrame d0 uuid v with
    | none => simp [hdf] at h
    | some d1 =>
      simp only [hdf, Option.map_some'] at h
      cases h
      refine ⟨backfill (some b) d1, rfl, ?_⟩
      rw [backfill_eq]
      cases hb : d1.battery <;> simp [hb]

/-- Witness for C10: with initial battery 70, a Disconnected state
processing the measurement frame `[0, 75]` publishes a Connected reading
whose battery is set. -/
theorem initial_battery_backfill_witness :
    processNotification (some 70) HrmState.Disconnected HR_MEASUREMENT_UUID
      ([0, 75] : List Byte) = some (HrmState.Ok ⟨75, none, some 70⟩) ∧
    ∃ d, (HrmState.Ok ⟨75, none, some 70⟩ : HrmState) = HrmState.Ok d ∧ d.battery.isSome := by
  refine ⟨by decide, ?_⟩
  exact initial_battery_backfill.2 70 HrmState.Disconnected HR_MEASUREMENT_UUID [0, 75] _
    (by decide)

/-- C6 (counterexample): when an unsubscribe call returns an error, the
termination sequence does NOT publish a Disconnected snapshot and does not
reach the transport disconnect — the `?` operator propagates the error
first. -/
theorem unsubscribe_error_aborts :
    ¬ ((terminationSequence [some "unsubscribe failed"] none).published =
          [HrmState.Disconnected] ∧
       (terminationSequence [some "unsubscribe failed"] none).disconnectCalled = true) := by
  decide

/-- C6 (amended): when every unsubscribe succeeds, the termination
sequence publishes exactly one Disconnected snapshot and reaches the
transport disconnect (regardless of the disconnect call's own result); an
unsubscribe error, by contrast, is propagated as the loop's error, and the
snapshot and the disconnect are skipped. -/
theorem termination_sequence_effects (unsubs : List (Option String))
    (disc : Option String) :
    (firstError unsubs = none →
      (terminationSequence unsubs disc).published = [HrmState.Disconnected] ∧
      (terminationSequence unsubs disc).disconnectCalled = true) ∧
    (∀ e, firstError unsubs = some e →
      (terminationSequence unsubs disc).published = [] ∧
      (terminationSequence unsubs disc).disconnectCalled = false ∧
      (terminationSequence unsubs disc).result = some e) := by
  constructor
  · intro h
    simp [terminationSequence, h]
  · intro e h
    simp [terminationSequence, h]

/-- Witness for C6's amended theorem: two successful unsubscribes, a
failing disconnect — still exactly one Disconnected snapshot and the
disconnect is reached. -/
theorem termination_sequence_effects_witness :
    firstError [none, none] = none ∧
    (terminationSequence [none, none] (some "disconnect failed")).published =
      [HrmState.Disconnected] ∧
    (terminationSequence [none, none] (some "disconnect failed")).disconnectCalled = true := by
  refine ⟨rfl, ?_⟩
  exact (termination_sequence_effects [none, none] (some "disconnect failed")).1 rfl

/-- C7 (refuted by the code): the third sort-key component written as
`f.name.clone().make_ascii_lowercase()` evaluates to `()` (the method
mutates in place and returns unit), so candidate names never influence the
order: two unfiltered unknown devices named "B" and "a" keep their
discovery order either way round, while filter rank and known rank do
reorder. -/
theorem sort_ignores_name :
    searchSort [] [] [⟨"B", 1, false, false⟩, ⟨"a", 2, false, false⟩] =
      [⟨"B", 1, false, false⟩, ⟨"a", 2, false, false⟩] ∧
    searchSort [] [] [⟨"a", 2, false, false⟩, ⟨"B", 1, false, false⟩] =
      [⟨"a", 2, false, false⟩, ⟨"B", 1, false, false⟩] ∧
    searchSort [2] [] [⟨"B", 1, false, false⟩, ⟨"a", 2, false, false⟩] =
      [⟨"a", 2, false, false⟩, ⟨"B", 1, false, false⟩] ∧
    searchSort [] [1] [⟨"a", 2, false, false⟩, ⟨"B", 1, true, false⟩] =
      [⟨"B", 1, true, false⟩, ⟨"a", 2, false, false⟩] := by
  refine ⟨?_, ?_, ?_, ?_⟩ <;> decide

/-- C8 (counterexample): with automatic acceptance disabled and the
candidate list `[A(known=false,pref=true), B(known=true,pref=false)]`, the
selector does not return B — only the first candidate is ever examined. -/
theorem auto_disabled_no_pick :
    chooseDeviceAuto false [⟨"A", 10, false, true⟩, ⟨"B", 11, true, false⟩] ≠
      ChoiceOutcome.picked ⟨"B", 11, true, false⟩ := by
  decide

/-- C8 (amended): on `[A(known=false,pref=true), B(known=true,pref=false)]`
the automatic stage returns A when automatic acceptance is enabled; when it
is disabled it examines only the first candidate A, which is not
registry-known, so no automatic pick is made and the code falls through to
the interactive prompt. -/
theorem choose_device_first_only :
    chooseDeviceAuto true [⟨"A", 10, false, true⟩, ⟨"B", 11, true, false⟩] =
      ChoiceOutcome.picked ⟨"A", 10, false, true⟩ ∧
    chooseDeviceAuto false [⟨"A", 10, false, true⟩, ⟨"B", 11, true, false⟩] =
      ChoiceOutcome.interactive := by
  constructor <;> decide

/-- C9: registry insertion keyed on the mac address is idempotent —
inserting an entry whose mac already occurs leaves the list unchanged, and
inserting the same mac twice into a list that did not contain it leaves
exactly one entry with that mac. -/
theorem add_hrm_idempotent :
    (∀ (l : List Hrm) (e : Hrm), (∃ d ∈ l, d.mac = e.mac) → add_hrm l e = l) ∧
    (∀ (l : List Hrm) (e1 e2 : Hrm), e2.mac = e1.mac →
      l.countP (fun d => d.mac == e1.mac) = 0 →
      (add_hrm (add_hrm l e1) e2).countP (fun d => d.mac == e1.mac) = 1) := by
  constructor
  · intro l e ⟨d, hd, hmac⟩
    rw [add_hrm, if_pos]
    rw [List.any_eq_true]
    exact ⟨d, hd, by simp [hmac]⟩
  · intro l e1 e2 hmac hcount
    have hnone : ∀ d ∈ l, ¬ (d.mac == e1.mac) = true := List.countP_eq_zero.mp hcount
    have h1 : add_hrm l e1 = l ++ [e1] := by
      rw [add_hrm, if_neg]
      rw [List.any_eq_true]
      rintro ⟨d, hd, hmacd⟩
      exact hnone d hd hmacd
    have h2 : add_hrm (l ++ [e1]) e2 = l ++ [e1] := by
      rw [add_hrm, if_pos]
      rw [List.any_eq_true]
      exact ⟨e1, by simp, by simp [hmac]⟩
    rw [h1, h2, List.countP_append, hcount]
    simp [List.countP_cons]

/-- Witness for C9 at a concrete registry: the mac 5 entered twice yields
one entry, and re-adding an existing mac is a no-op. -/
theorem add_hrm_idempotent_witness :
    (∃ d ∈ [(⟨"polar", 5, some 1⟩ : Hrm)], d.mac = (⟨"polar two", 5, none⟩ : Hrm).mac) ∧
    add_hrm [⟨"polar", 5, some 1⟩] ⟨"polar two", 5, none⟩ = [⟨"polar", 5, some 1⟩] ∧
    (add_hrm (add_hrm [] (⟨"polar", 5, some 1⟩ : Hrm)) ⟨"polar two", 5, none⟩).countP
      (fun d => d.mac == (⟨"polar", 5, some 1⟩ : Hrm).mac) = 1 := by
  refine ⟨⟨⟨"polar", 5, some 1⟩, by simp, rfl⟩, ?_, ?_⟩
  · exact add_hrm_idempotent.1 [⟨"polar", 5, some 1⟩] ⟨"polar two", 5, none⟩
      ⟨⟨"polar", 5, some 1⟩, by simp, rfl⟩
  · exact add_hrm_idempotent.2 [] ⟨"polar", 5, some 1⟩ ⟨"polar two", 5, none⟩ rfl rfl
